import Mathlib

/-!
# monitoring/IPCHandler.cpp: channel registry, lazy roles and error recovery

Shallow embedding of the static class `na62::IPCHandler`.

* The six static socket pointers and `currentState` are fields of `Process`.
  A pointer is an `Option Socket`; `none` is `nullptr`.
* The transport (`ZMQHandler`, `zmq::socket_t`) is not part of the file.  Its
  state is kept next to the registry (`running`, `nextSocket`, `calls`), every
  transport call is appended to `calls`, and the answer of the transport to
  the single `send` or `recv` an operation performs is an explicit argument
  (`SendResult`, `RecvResult`).  `connect`, `bind` and `setsockopt` are
  recorded and have no failure path, as in the source, which handles none.
* A member call through a pointer is a `match` on the handle; the `none`
  branch gives `Outcome.nullDeref`.
* `std::string` is `String`; a message frame is the `String` of its bytes.
  The object representation of a `STATE` on the wire is a parameter
  (`toBytes`, `ofBytes`) of the two functions that use it.
-/

namespace na62

/-! ## Data model -/

/-- The endpoint given by the definition of `StateAddress` (line 22). -/
def StateAddress : String := "ipc:///tmp/na62-farm-state"

/-- The endpoint given by the definition of `StatisticsAddress` (line 23). -/
def StatisticsAddress : String := "ipc:///tmp/na62-farm-statistics"

/-- The endpoint given by the definition of `CommandAddress` (line 24). -/
def CommandAddress : String := "ipc:///tmp/na62-farm-command"

/-- Modelled from the spec: the enumeration `STATE` of IPCHandler.h, which is
not under src/.  The source names two of its values, `OFF` (the start value of
`currentState`) and the sentinel `TIMEOUT`; every further lifecycle value is
`other` with its ordinal. -/
inductive STATE
  | OFF
  | TIMEOUT
  | other (ordinal : Nat)
  deriving DecidableEq, Repr

/-- The two socket types the source asks `GenerateSocket` for. -/
inductive SocketType
  | ZMQ_PUSH
  | ZMQ_PULL
  deriving DecidableEq, Repr

/-- Identity of one `zmq::socket_t` object. -/
abbrev Socket := Nat

/-- A `zmq::socket_t*`: `none` is `nullptr`. -/
abbrev Handle := Option Socket

/-- One recorded call into the transport. -/
inductive Call
  | GenerateSocket (type : SocketType) (s : Socket)
  | connect (s : Socket) (addr : String)
  | bind (s : Socket) (addr : String)
  | setsockopt (s : Socket) (timeout : Int)
  | send (s : Socket) (frame : String)
  | recv (s : Socket)
  | DestroySocket (s : Socket)
  deriving DecidableEq, Repr

/-- The value of `EINTR` in errno.h. -/
def EINTR : Nat := 4

/-- What the transport answers to `socket->send(data, size)`: the frame is
taken, or `zmq::error_t` with the given error number is thrown. -/
inductive SendResult
  | sent
  | error (errno : Nat)
  deriving DecidableEq, Repr

/-- What the transport answers to `socket->recv(&msg)`: `true` with a frame,
`false` (the receive timeout expired, `msg` stays empty), or `zmq::error_t`
with the given error number is thrown. -/
inductive RecvResult
  | frame (bytes : String)
  | again
  | error (errno : Nat)
  deriving DecidableEq, Repr

/-- How a call of an operation ends: it returns a value, a `zmq::error_t`
leaves it uncaught, or it calls a member through a null pointer. -/
inductive Outcome (α : Type)
  | returned (value : α)
  | threw (errno : Nat)
  | nullDeref
  deriving DecidableEq, Repr

/-- The six static socket pointers of `IPCHandler` (lines 29-35). -/
structure Handles where
  stateSender_ : Handle
  statisticsSender_ : Handle
  commandSender_ : Handle
  stateReceiver_ : Handle
  statisticsReceiver_ : Handle
  commandReceiver_ : Handle
  deriving DecidableEq, Repr

/-- The static members of `IPCHandler` (lines 28-35) together with the state
of the transport of the same process: whether `ZMQHandler::IsRunning()` holds,
the identity the next generated socket gets, and the record of all transport
calls made so far (oldest first). -/
structure Process where
  currentState : STATE
  stateSender_ : Handle
  statisticsSender_ : Handle
  commandSender_ : Handle
  stateReceiver_ : Handle
  statisticsReceiver_ : Handle
  commandReceiver_ : Handle
  running : Bool
  nextSocket : Nat
  calls : List Call
  deriving DecidableEq, Repr

/-- The six handles of a process. -/
def Process.handles (p : Process) : Handles :=
  { stateSender_ := p.stateSender_
    statisticsSender_ := p.statisticsSender_
    commandSender_ := p.commandSender_
    stateReceiver_ := p.stateReceiver_
    statisticsReceiver_ := p.statisticsReceiver_
    commandReceiver_ := p.commandReceiver_ }

/-- The registry with no handle at all. -/
def Handles.absent : Handles :=
  { stateSender_ := none
    statisticsSender_ := none
    commandSender_ := none
    stateReceiver_ := none
    statisticsReceiver_ := none
    commandReceiver_ := none }

/-- A freshly started process: the static initialisers of lines 28-35, no
transport call made yet. -/
def Process.start (running : Bool) : Process :=
  { currentState := STATE.OFF
    stateSender_ := none
    statisticsSender_ := none
    commandSender_ := none
    stateReceiver_ := none
    statisticsReceiver_ := none
    commandReceiver_ := none
    running := running
    nextSocket := 0
    calls := [] }

/-- The state in which a call leaves the process, with the way the call
ended. -/
structure Run (α : Type) where
  outcome : Outcome α
  after : Process
  deriving Repr

/-! ## The transport, as far as the source uses it -/

/-- Append one transport call to the record. -/
def record (c : Call) (p : Process) : Process :=
  { p with calls := p.calls ++ [c] }

/-- Modelled from the spec: `ZMQHandler::IsRunning()` of socket/ZMQHandler.h,
which is not under src/: whether the transport is currently running. -/
def IsRunning (p : Process) : Bool :=
  p.running

/-- Modelled from the spec: `ZMQHandler::GenerateSocket(type)` of
socket/ZMQHandler.h, which is not under src/: a new socket object, never null,
different from every socket generated before. -/
def GenerateSocket (type : SocketType) (p : Process) : Socket × Process :=
  (p.nextSocket,
    { record (Call.GenerateSocket type p.nextSocket) p with nextSocket := p.nextSocket + 1 })

/-- Modelled from the spec: `ZMQHandler::DestroySocket(handle)` of
socket/ZMQHandler.h, which is not under src/: releases the socket and sets the
handle to absent; an absent handle is ignored.  The first component is the
value of the handle afterwards. -/
def DestroySocket (h : Handle) (p : Process) : Handle × Process :=
  match h with
  | none => (none, p)
  | some s => (none, record (Call.DestroySocket s) p)

/-! ## The operations of IPCHandler.cpp -/

/-- Lines 37-47. -/
def shutDown (p : Process) : Process :=
  let r := DestroySocket p.stateSender_ p
  let p := { r.2 with stateSender_ := r.1 }
  let r := DestroySocket p.statisticsSender_ p
  let p := { r.2 with statisticsSender_ := r.1 }
  let r := DestroySocket p.commandSender_ p
  let p := { r.2 with commandSender_ := r.1 }
  let r := DestroySocket p.stateReceiver_ p
  let p := { r.2 with stateReceiver_ := r.1 }
  let r := DestroySocket p.statisticsReceiver_ p
  let p := { r.2 with statisticsReceiver_ := r.1 }
  let r := DestroySocket p.commandReceiver_ p
  { r.2 with commandReceiver_ := r.1 }

/-- Lines 49-63.  The three pointers were assigned from `GenerateSocket` just
before, so the three `connect` calls go through them directly. -/
def connectClient (p : Process) : Bool × Process :=
  if !IsRunning p then (false, p)
  else
    let g1 := GenerateSocket SocketType.ZMQ_PUSH p
    let p := { g1.2 with stateSender_ := some g1.1 }
    let g2 := GenerateSocket SocketType.ZMQ_PUSH p
    let p := { g2.2 with statisticsSender_ := some g2.1 }
    let g3 := GenerateSocket SocketType.ZMQ_PULL p
    let p := { g3.2 with commandReceiver_ := some g3.1 }
    let p := record (Call.connect g3.1 CommandAddress) p
    let p := record (Call.connect g1.1 StateAddress) p
    let p := record (Call.connect g2.1 StatisticsAddress) p
    (true, p)

/-- Lines 65-79. -/
def bindServer (p : Process) : Bool × Process :=
  if !IsRunning p then (false, p)
  else
    let g1 := GenerateSocket SocketType.ZMQ_PULL p
    let p := { g1.2 with statisticsReceiver_ := some g1.1 }
    let g2 := GenerateSocket SocketType.ZMQ_PULL p
    let p := { g2.2 with stateReceiver_ := some g2.1 }
    let g3 := GenerateSocket SocketType.ZMQ_PUSH p
    let p := { g3.2 with commandSender_ := some g3.1 }
    let p := record (Call.bind g2.1 StateAddress) p
    let p := record (Call.bind g1.1 StatisticsAddress) p
    let p := record (Call.bind g3.1 CommandAddress) p
    (true, p)

/-- The guard `!handle && !role()` of lines 85, 101, 117, 142, 168, 189 and
212: `role` is called only when the handle is null, and the guard holds when
the handle is null and `role` returned false. -/
def giveUp (handle : Handle) (role : Process → Bool × Process) (p : Process) :
    Bool × Process :=
  match handle with
  | some _ => (false, p)
  | none =>
    let r := role p
    (!r.1, r.2)

/-- Lines 84-93. -/
def setTimeout (timeout : Int) (p : Process) : Run Unit :=
  let g := giveUp p.statisticsReceiver_ bindServer p
  if g.1 then ⟨Outcome.returned (), g.2⟩
  else
    let p := g.2
    match p.statisticsReceiver_ with
    | none => ⟨Outcome.nullDeref, p⟩
    | some s1 =>
      let p := record (Call.setsockopt s1 timeout) p
      match p.stateReceiver_ with
      | none => ⟨Outcome.nullDeref, p⟩
      | some s2 => ⟨Outcome.returned (), record (Call.setsockopt s2 timeout) p⟩

/-- Lines 95-106.  The `send` of line 105 is outside any try block. -/
def updateState (toBytes : STATE → String) (newState : STATE) (tx : SendResult)
    (p : Process) : Run Unit :=
  let p := { p with currentState := newState }
  if !IsRunning p then ⟨Outcome.returned (), p⟩
  else
    let g := giveUp p.stateSender_ connectClient p
    if g.1 then ⟨Outcome.returned (), g.2⟩
    else
      let p := g.2
      match p.stateSender_ with
      | none => ⟨Outcome.nullDeref, p⟩
      | some s =>
        let p := record (Call.send s (toBytes p.currentState)) p
        match tx with
        | SendResult.sent => ⟨Outcome.returned (), p⟩
        | SendResult.error e => ⟨Outcome.threw e, p⟩

/-- Lines 112-132. -/
def sendStatistics (name values : String) (tx : SendResult) (p : Process) : Run Unit :=
  if !IsRunning p then ⟨Outcome.returned (), p⟩
  else
    let g := giveUp p.statisticsSender_ connectClient p
    if g.1 then ⟨Outcome.returned (), g.2⟩
    else
      let p := g.2
      match p.statisticsSender_ with
      | none => ⟨Outcome.returned (), p⟩
      | some s =>
        if name = "" ∨ values = "" then ⟨Outcome.returned (), p⟩
        else
          let message := name ++ ":" ++ values
          let p := record (Call.send s message) p
          match tx with
          | SendResult.sent => ⟨Outcome.returned (), p⟩
          | SendResult.error _ => ⟨Outcome.returned (), p⟩

/-- Lines 108-110. -/
def sendErrorMessage (message : String) (tx : SendResult) (p : Process) : Run Unit :=
  sendStatistics "ErrorMessage" message tx p

/-- Lines 137-158. -/
def sendCommand (command : String) (tx : SendResult) (p : Process) : Run Unit :=
  if !IsRunning p then ⟨Outcome.returned (), p⟩
  else
    let g := giveUp p.commandSender_ bindServer p
    if g.1 then ⟨Outcome.returned (), g.2⟩
    else
      let p := g.2
      match p.commandSender_ with
      | none => ⟨Outcome.returned (), p⟩
      | some s =>
        if command = "" then ⟨Outcome.returned (), p⟩
        else
          let p := record (Call.send s command) p
          match tx with
          | SendResult.sent => ⟨Outcome.returned (), p⟩
          | SendResult.error e =>
            if e ≠ EINTR then
              let r := DestroySocket p.commandSender_ p
              ⟨Outcome.returned (), { r.2 with commandSender_ := r.1 }⟩
            else ⟨Outcome.returned (), p⟩

/-- Lines 163-182.  The value of `recv` is not looked at: when it is `false`
the string is built from the empty message. -/
def getNextCommand (rx : RecvResult) (p : Process) : Run String :=
  if !IsRunning p then ⟨Outcome.returned "", p⟩
  else
    let g := giveUp p.commandReceiver_ connectClient p
    if g.1 then ⟨Outcome.returned "", g.2⟩
    else
      let p := g.2
      match p.commandReceiver_ with
      | none => ⟨Outcome.nullDeref, p⟩
      | some s =>
        let p := record (Call.recv s) p
        match rx with
        | RecvResult.frame bytes => ⟨Outcome.returned bytes, p⟩
        | RecvResult.again => ⟨Outcome.returned "", p⟩
        | RecvResult.error e =>
          if e ≠ EINTR then
            let r := DestroySocket p.commandReceiver_ p
            ⟨Outcome.returned "", { r.2 with commandReceiver_ := r.1 }⟩
          else ⟨Outcome.returned "", p⟩

/-- Lines 184-205. -/
def tryToReceiveStatistics (rx : RecvResult) (p : Process) : Run String :=
  if !IsRunning p then ⟨Outcome.returned "", p⟩
  else
    let g := giveUp p.statisticsReceiver_ bindServer p
    if g.1 then ⟨Outcome.returned "", g.2⟩
    else
      let p := g.2
      match p.statisticsReceiver_ with
      | none => ⟨Outcome.nullDeref, p⟩
      | some s =>
        let p := record (Call.recv s) p
        match rx with
        | RecvResult.frame bytes => ⟨Outcome.returned bytes, p⟩
        | RecvResult.again => ⟨Outcome.returned "", p⟩
        | RecvResult.error e =>
          if e ≠ EINTR then
            let r := DestroySocket p.statisticsReceiver_ p
            ⟨Outcome.returned "", { r.2 with statisticsReceiver_ := r.1 }⟩
          else ⟨Outcome.returned "", p⟩

/-- Lines 207-227. -/
def tryToReceiveState (ofBytes : String → STATE) (rx : RecvResult) (p : Process) :
    Run STATE :=
  if !IsRunning p then ⟨Outcome.returned STATE.TIMEOUT, p⟩
  else
    let g := giveUp p.stateReceiver_ bindServer p
    if g.1 then ⟨Outcome.returned STATE.TIMEOUT, g.2⟩
    else
      let p := g.2
      match p.stateReceiver_ with
      | none => ⟨Outcome.nullDeref, p⟩
      | some s =>
        let p := record (Call.recv s) p
        match rx with
        | RecvResult.frame bytes => ⟨Outcome.returned (ofBytes bytes), p⟩
        | RecvResult.again => ⟨Outcome.returned STATE.TIMEOUT, p⟩
        | RecvResult.error e =>
          if e ≠ EINTR then
            let r := DestroySocket p.stateReceiver_ p
            ⟨Outcome.returned STATE.TIMEOUT, { r.2 with stateReceiver_ := r.1 }⟩
          else ⟨Outcome.returned STATE.TIMEOUT, p⟩

/-! ## A lossless transport between two processes -/

/-- Modelled from the spec: the frames in flight on each channel address,
oldest first; the transport between a worker and the collector is not under
src/. -/
abbrev Net := String → List String

/-- The address a socket was last connected or bound to, read off the record
of transport calls. -/
def endpointOf (calls : List Call) (s : Socket) : Option String :=
  calls.reverse.findSome? fun c =>
    match c with
    | Call.connect t addr => if t = s then some addr else none
    | Call.bind t addr => if t = s then some addr else none
    | _ => none

/-- Put one frame at the end of the queue of an address. -/
def enqueue (net : Net) (addr : String) (frame : String) : Net :=
  fun a => if a = addr then net a ++ [frame] else net a

/-- Modelled from the spec: a lossless transport carries every frame of a
`send` call to the queue of the address its socket has at that moment.  `log`
is the record before the calls in the list. -/
def deliver (net : Net) (log : List Call) : List Call → Net
  | [] => net
  | Call.send s frame :: rest =>
    match endpointOf log s with
    | some addr => deliver (enqueue net addr frame) (log ++ [Call.send s frame]) rest
    | none => deliver net (log ++ [Call.send s frame]) rest
  | c :: rest => deliver net (log ++ [c]) rest

/-- Modelled from the spec: what a first-in first-out queue answers to a
receive on a socket of the given address: its oldest frame, or nothing within
the receive timeout when it is empty. -/
def answer (net : Net) (addr : String) : RecvResult :=
  match net addr with
  | [] => RecvResult.again
  | frame :: _ => RecvResult.frame frame

/-- The transport calls made between two states of one process. -/
def newCalls (before after : Process) : List Call :=
  after.calls.drop before.calls.length

/-! ## Sequences of operations -/

/-- One call of a public operation together with the answer of the transport
to its `send` or `recv`, or a start or stop of the transport from outside. -/
inductive Op
  | shutDown
  | connectClient
  | bindServer
  | setTimeout (timeout : Int)
  | updateState (newState : STATE) (tx : SendResult)
  | sendErrorMessage (message : String) (tx : SendResult)
  | sendStatistics (name values : String) (tx : SendResult)
  | sendCommand (command : String) (tx : SendResult)
  | getNextCommand (rx : RecvResult)
  | tryToReceiveStatistics (rx : RecvResult)
  | tryToReceiveState (rx : RecvResult)
  | transport (running : Bool)
  deriving Repr

/-- Forget the returned value of a call. -/
def Run.discard {α : Type} (r : Run α) : Run Unit :=
  match r.outcome with
  | Outcome.returned _ => ⟨Outcome.returned (), r.after⟩
  | Outcome.threw e => ⟨Outcome.threw e, r.after⟩
  | Outcome.nullDeref => ⟨Outcome.nullDeref, r.after⟩

/-- Perform one operation. -/
def step (toBytes : STATE → String) (ofBytes : String → STATE) (op : Op) (p : Process) :
    Run Unit :=
  match op with
  | Op.shutDown => ⟨Outcome.returned (), shutDown p⟩
  | Op.connectClient => ⟨Outcome.returned (), (connectClient p).2⟩
  | Op.bindServer => ⟨Outcome.returned (), (bindServer p).2⟩
  | Op.setTimeout timeout => setTimeout timeout p
  | Op.updateState newState tx => updateState toBytes newState tx p
  | Op.sendErrorMessage message tx => sendErrorMessage message tx p
  | Op.sendStatistics name values tx => sendStatistics name values tx p
  | Op.sendCommand command tx => sendCommand command tx p
  | Op.getNextCommand rx => (getNextCommand rx p).discard
  | Op.tryToReceiveStatistics rx => (tryToReceiveStatistics rx p).discard
  | Op.tryToReceiveState rx => (tryToReceiveState ofBytes rx p).discard
  | Op.transport running => ⟨Outcome.returned (), { p with running := running }⟩

/-- The states a process can be in: it starts with the empty registry, and
every operation that did not end in a call through a null pointer leads to
the next state. -/
inductive Reachable (toBytes : STATE → String) (ofBytes : String → STATE) : Process → Prop
  | start (running : Bool) : Reachable toBytes ofBytes (Process.start running)
  | step (op : Op) (p : Process) (hp : Reachable toBytes ofBytes p)
      (hok : (step toBytes ofBytes op p).outcome ≠ Outcome.nullDeref) :
      Reachable toBytes ofBytes (step toBytes ofBytes op p).after

/-! ## The link between handles and addresses -/

/-- Whether a recorded call gives a socket an address. -/
def Call.isEndpoint : Call → Bool
  | Call.connect _ _ => true
  | Call.bind _ _ => true
  | _ => false

/-- The handle, when present, is a socket generated earlier whose address by
the record of transport calls is `addr`. -/
def Linked (p : Process) (h : Handle) (addr : String) : Prop :=
  ∀ s : Nat, h = some s → s < p.nextSocket ∧ endpointOf p.calls s = some addr

/-- Whether a handle is linked can be computed. -/
instance Linked.decide (p : Process) (h : Handle) (addr : String) :
    Decidable (Linked p h addr) :=
  match h with
  | none => isTrue (fun _ hs => nomatch hs)
  | some s =>
    if hd : s < p.nextSocket ∧ endpointOf p.calls s = some addr then
      isTrue (fun t ht => by cases ht; exact hd)
    else isFalse (fun hl => hd (hl s rfl))

/-- Every handle present is linked to the address of its channel, as lines
58-60 and 74-76 establish it. -/
def WellFormed (p : Process) : Prop :=
  Linked p p.stateSender_ StateAddress ∧ Linked p p.statisticsSender_ StatisticsAddress ∧
  Linked p p.commandSender_ CommandAddress ∧ Linked p p.stateReceiver_ StateAddress ∧
  Linked p p.statisticsReceiver_ StatisticsAddress ∧ Linked p p.commandReceiver_ CommandAddress

/-- Whether a process is well formed can be computed. -/
instance WellFormed.decide (p : Process) : Decidable (WellFormed p) := by
  unfold WellFormed
  infer_instance

/-! ## Concrete states used as instances -/

/-- A worker whose client role is established: `connectClient` on a fresh
process with the transport running. -/
def worker : Process := (connectClient (Process.start true)).2

/-- A collector whose server role is established: `bindServer` on a fresh
process with the transport running. -/
def collector : Process := (bindServer (Process.start true)).2

/-- No frame in flight on any channel. -/
def Net.idle : Net := fun _ => []

/-- A recorded receive does not change the address of any socket. -/
theorem endpointOf_append_recv (log : List Call) (s t : Socket) :
    endpointOf (log ++ [Call.recv t]) s = endpointOf log s := by
  simp [endpointOf]

/-- The address of a socket after one more recorded call. -/
theorem endpointOf_append_one (log : List Call) (c : Call) (s : Socket) :
    endpointOf (log ++ [c]) s =
      match c with
      | Call.connect t addr => if t = s then some addr else endpointOf log s
      | Call.bind t addr => if t = s then some addr else endpointOf log s
      | _ => endpointOf log s := by
  cases c <;> simp [endpointOf, List.findSome?_cons] <;> split <;> simp_all

/-- The freshly started process is well formed: it has no handle. -/
theorem wellFormed_start (running : Bool) : WellFormed (Process.start running) := by
  simp [WellFormed, Linked, Process.start]

/-- A handle linked before six calls that give addresses only to sockets generated
later is still linked after them. -/
theorem linked_of_older (log : List Call) (next : Nat) (h : Handle) (addr : String)
    (c1 c2 c3 c4 c5 c6 : Call)
    (hc : ∀ c ∈ [c1, c2, c3, c4, c5, c6], ∀ (t : Nat) a,
      (c = Call.connect t a ∨ c = Call.bind t a) → next ≤ t)
    (hl : ∀ s : Nat, h = some s → s < next ∧ endpointOf log s = some addr) :
    ∀ s : Nat, h = some s → s < next + 1 + 1 + 1 ∧
      endpointOf (log ++ [c1] ++ [c2] ++ [c3] ++ [c4] ++ [c5] ++ [c6]) s = some addr := by
  intro s hs
  obtain ⟨hlt, hep⟩ := hl s hs
  refine ⟨by omega, ?_⟩
  have hstep : ∀ (l : List Call) (c : Call), c ∈ [c1, c2, c3, c4, c5, c6] →
      endpointOf (l ++ [c]) s = endpointOf l s := by
    intro l c hmem
    rw [endpointOf_append_one]
    cases c with
    | connect t a =>
      have := hc _ hmem t a (Or.inl rfl)
      have hne : ¬ t = s := by
        intro heq
        rw [heq] at this
        exact Nat.lt_irrefl _ (Nat.lt_of_lt_of_le hlt this)
      simp [hne]
    | bind t a =>
      have := hc _ hmem t a (Or.inr rfl)
      have hne : ¬ t = s := by
        intro heq
        rw [heq] at this
        exact Nat.lt_irrefl _ (Nat.lt_of_lt_of_le hlt this)
      simp [hne]
    | _ => rfl
  rw [hstep _ c6 (by simp), hstep _ c5 (by simp), hstep _ c4 (by simp),
    hstep _ c3 (by simp), hstep _ c2 (by simp), hstep _ c1 (by simp), hep]

/-- The invariant is kept by `connectClient`. -/
theorem wellFormed_connectClient (p : Process) (h : WellFormed p) :
    WellFormed (connectClient p).2 := by
  obtain ⟨st, h1, h2, h3, h4, h5, h6, run, next, log⟩ := p
  cases run
  · simpa [connectClient, IsRunning] using h
  · simp only [WellFormed, Linked] at h
    obtain ⟨a1, a2, a3, a4, a5, a6⟩ := h
    simp only [connectClient, IsRunning, GenerateSocket, record, WellFormed, Linked,
      Bool.not_true, Bool.false_eq_true, if_false]
    have d1 : ¬ next + 1 = next := by omega
    have d2 : ¬ next + 1 + 1 = next := by omega
    have d3 : ¬ next = next + 1 := by omega
    have d4 : ¬ next + 1 + 1 = next + 1 := by omega
    have d5 : ¬ next = next + 1 + 1 := by omega
    have d6 : ¬ next + 1 = next + 1 + 1 := by omega
    refine ⟨?_, ?_, ?_, ?_, ?_, ?_⟩
    · intro s hs
      simp only [Option.some.injEq] at hs
      subst hs
      refine ⟨by omega, ?_⟩
      simp only [endpointOf_append_one]
      simp [d1, d2, d3, d4, d5, d6]
    · intro s hs
      simp only [Option.some.injEq] at hs
      subst hs
      refine ⟨by omega, ?_⟩
      simp only [endpointOf_append_one]
      simp [d1, d2, d3, d4, d5, d6]
    · exact linked_of_older log next h3 _ _ _ _ _ _ _ (by simp; omega) a3
    · exact linked_of_older log next h4 _ _ _ _ _ _ _ (by simp; omega) a4
    · exact linked_of_older log next h5 _ _ _ _ _ _ _ (by simp; omega) a5
    · intro s hs
      simp only [Option.some.injEq] at hs
      subst hs
      refine ⟨by omega, ?_⟩
      simp only [endpointOf_append_one]
      simp [d1, d2, d3, d4, d5, d6]

/-- The invariant is kept by `bindServer`. -/
theorem wellFormed_bindServer (p : Process) (h : WellFormed p) :
    WellFormed (bindServer p).2 := by
  obtain ⟨st, h1, h2, h3, h4, h5, h6, run, next, log⟩ := p
  cases run
  · simpa [bindServer, IsRunning] using h
  · simp only [WellFormed, Linked] at h
    obtain ⟨a1, a2, a3, a4, a5, a6⟩ := h
    simp only [bindServer, IsRunning, GenerateSocket, record, WellFormed, Linked,
      Bool.not_true, Bool.false_eq_true, if_false]
    have d1 : ¬ next + 1 = next := by omega
    have d2 : ¬ next + 1 + 1 = next := by omega
    have d3 : ¬ next = next + 1 := by omega
    have d4 : ¬ next + 1 + 1 = next + 1 := by omega
    have d5 : ¬ next = next + 1 + 1 := by omega
    have d6 : ¬ next + 1 = next + 1 + 1 := by omega
    refine ⟨?_, ?_, ?_, ?_, ?_, ?_⟩
    · exact linked_of_older log next h1 _ _ _ _ _ _ _ (by simp; omega) a1
    · exact linked_of_older log next h2 _ _ _ _ _ _ _ (by simp; omega) a2
    · intro s hs
      simp only [Option.some.injEq] at hs
      subst hs
      refine ⟨by omega, ?_⟩
      simp only [endpointOf_append_one]
      simp [d1, d2, d3, d4, d5, d6]
    · intro s hs
      simp only [Option.some.injEq] at hs
      subst hs
      refine ⟨by omega, ?_⟩
      simp only [endpointOf_append_one]
      simp [d1, d2, d3, d4, d5, d6]
    · intro s hs
      simp only [Option.some.injEq] at hs
      subst hs
      refine ⟨by omega, ?_⟩
      simp only [endpointOf_append_one]
      simp [d1, d2, d3, d4, d5, d6]
    · exact linked_of_older log next h6 _ _ _ _ _ _ _ (by simp; omega) a6

/-- The invariant is kept by recording a call that gives no address. -/
theorem wellFormed_record (c : Call) (p : Process) (hc : c.isEndpoint = false)
    (h : WellFormed p) : WellFormed (record c p) := by
  cases c <;> simp [Call.isEndpoint] at hc <;>
    simpa [WellFormed, Linked, record, endpointOf_append_one] using h

/-- The invariant is kept by `DestroySocket`, seen as a change of the record. -/
theorem wellFormed_DestroySocket (hd : Handle) (p : Process) (h : WellFormed p) :
    WellFormed (DestroySocket hd p).2 := by
  cases hd with
  | none => exact h
  | some s => exact wellFormed_record _ p rfl h

/-- The handle is absent after `DestroySocket`. -/
theorem DestroySocket_handle (hd : Handle) (p : Process) : (DestroySocket hd p).1 = none := by
  cases hd <;> rfl

/-- The invariant is kept by `DestroySocket(stateSender_)`. -/
theorem wellFormed_release_stateSender (q : Process) (h : WellFormed q) :
    WellFormed { (DestroySocket q.stateSender_ q).2 with
      stateSender_ := (DestroySocket q.stateSender_ q).1 } := by
  have h2 := wellFormed_DestroySocket q.stateSender_ q h
  rw [DestroySocket_handle]
  obtain ⟨a1, a2, a3, a4, a5, a6⟩ := h2
  exact ⟨fun s hs => (by cases hs), a2, a3, a4, a5, a6⟩

/-- The invariant is kept by `DestroySocket(statisticsSender_)`. -/
theorem wellFormed_release_statisticsSender (q : Process) (h : WellFormed q) :
    WellFormed { (DestroySocket q.statisticsSender_ q).2 with
      statisticsSender_ := (DestroySocket q.statisticsSender_ q).1 } := by
  have h2 := wellFormed_DestroySocket q.statisticsSender_ q h
  rw [DestroySocket_handle]
  obtain ⟨a1, a2, a3, a4, a5, a6⟩ := h2
  exact ⟨a1, fun s hs => (by cases hs), a3, a4, a5, a6⟩

/-- The invariant is kept by `DestroySocket(commandSender_)`. -/
theorem wellFormed_release_commandSender (q : Process) (h : WellFormed q) :
    WellFormed { (DestroySocket q.commandSender_ q).2 with
      commandSender_ := (DestroySocket q.commandSender_ q).1 } := by
  have h2 := wellFormed_DestroySocket q.commandSender_ q h
  rw [DestroySocket_handle]
  obtain ⟨a1, a2, a3, a4, a5, a6⟩ := h2
  exact ⟨a1, a2, fun s hs => (by cases hs), a4, a5, a6⟩

/-- The invariant is kept by `DestroySocket(stateReceiver_)`. -/
theorem wellFormed_release_stateReceiver (q : Process) (h : WellFormed q) :
    WellFormed { (DestroySocket q.stateReceiver_ q).2 with
      stateReceiver_ := (DestroySocket q.stateReceiver_ q).1 } := by
  have h2 := wellFormed_DestroySocket q.stateReceiver_ q h
  rw [DestroySocket_handle]
  obtain ⟨a1, a2, a3, a4, a5, a6⟩ := h2
  exact ⟨a1, a2, a3, fun s hs => (by cases hs), a5, a6⟩

/-- The invariant is kept by `DestroySocket(statisticsReceiver_)`. -/
theorem wellFormed_release_statisticsReceiver (q : Process) (h : WellFormed q) :
    WellFormed { (DestroySocket q.statisticsReceiver_ q).2 with
      statisticsReceiver_ := (DestroySocket q.statisticsReceiver_ q).1 } := by
  have h2 := wellFormed_DestroySocket q.statisticsReceiver_ q h
  rw [DestroySocket_handle]
  obtain ⟨a1, a2, a3, a4, a5, a6⟩ := h2
  exact ⟨a1, a2, a3, a4, fun s hs => (by cases hs), a6⟩

/-- The invariant is kept by `DestroySocket(commandReceiver_)`. -/
theorem wellFormed_release_commandReceiver (q : Process) (h : WellFormed q) :
    WellFormed { (DestroySocket q.commandReceiver_ q).2 with
      commandReceiver_ := (DestroySocket q.commandReceiver_ q).1 } := by
  have h2 := wellFormed_DestroySocket q.commandReceiver_ q h
  rw [DestroySocket_handle]
  obtain ⟨a1, a2, a3, a4, a5, a6⟩ := h2
  exact ⟨a1, a2, a3, a4, a5, fun s hs => (by cases hs)⟩

/-- The invariant is kept by the guard that may call `connectClient`. -/
theorem wellFormed_giveUp_connectClient (hd : Handle) (p : Process) (h : WellFormed p) :
    WellFormed (giveUp hd connectClient p).2 := by
  cases hd with
  | none => exact wellFormed_connectClient p h
  | some s => exact h

/-- The invariant is kept by the guard that may call `bindServer`. -/
theorem wellFormed_giveUp_bindServer (hd : Handle) (p : Process) (h : WellFormed p) :
    WellFormed (giveUp hd bindServer p).2 := by
  cases hd with
  | none => exact wellFormed_bindServer p h
  | some s => exact h

/-- The invariant is kept by `shutDown`. -/
theorem wellFormed_shutDown (p : Process) (h : WellFormed p) : WellFormed (shutDown p) := by
  unfold shutDown
  exact wellFormed_release_commandReceiver _ (wellFormed_release_statisticsReceiver _
    (wellFormed_release_stateReceiver _ (wellFormed_release_commandSender _
      (wellFormed_release_statisticsSender _ (wellFormed_release_stateSender _ h)))))

/-- The invariant is kept by `setTimeout`. -/
theorem wellFormed_setTimeout (timeout : Int) (p : Process) (h : WellFormed p) :
    WellFormed (setTimeout timeout p).after := by
  have hg := wellFormed_giveUp_bindServer p.statisticsReceiver_ p h
  unfold setTimeout
  simp only []
  repeat' split
  all_goals
    first
    | exact hg
    | exact wellFormed_record _ _ rfl hg
    | exact wellFormed_record _ _ rfl (wellFormed_record _ _ rfl hg)

/-- The invariant is kept by `updateState`. -/
theorem wellFormed_updateState (toBytes : STATE → String) (newState : STATE)
    (tx : SendResult) (p : Process) (h : WellFormed p) :
    WellFormed (updateState toBytes newState tx p).after := by
  have h0 : WellFormed { p with currentState := newState } := h
  have hg := wellFormed_giveUp_connectClient p.stateSender_
    { p with currentState := newState } h0
  unfold updateState
  simp only []
  repeat' split
  all_goals
    first
    | exact h0
    | exact hg
    | exact wellFormed_record _ _ rfl hg

/-- The invariant is kept by `sendStatistics`. -/
theorem wellFormed_sendStatistics (name values : String) (tx : SendResult) (p : Process)
    (h : WellFormed p) : WellFormed (sendStatistics name values tx p).after := by
  have hg := wellFormed_giveUp_connectClient p.statisticsSender_ p h
  unfold sendStatistics
  simp only []
  repeat' split
  all_goals
    first
    | exact h
    | exact hg
    | exact wellFormed_record _ _ rfl hg

/-- The invariant is kept by `sendCommand`. -/
theorem wellFormed_sendCommand (command : String) (tx : SendResult) (p : Process)
    (h : WellFormed p) : WellFormed (sendCommand command tx p).after := by
  have hg := wellFormed_giveUp_bindServer p.commandSender_ p h
  unfold sendCommand
  simp only []
  repeat' split
  all_goals
    first
    | exact h
    | exact hg
    | exact wellFormed_record _ _ rfl hg
    | exact wellFormed_release_commandSender _ (wellFormed_record _ _ rfl hg)

/-- The invariant is kept by `getNextCommand`. -/
theorem wellFormed_getNextCommand (rx : RecvResult) (p : Process) (h : WellFormed p) :
    WellFormed (getNextCommand rx p).after := by
  have hg := wellFormed_giveUp_connectClient p.commandReceiver_ p h
  unfold getNextCommand
  simp only []
  repeat' split
  all_goals
    first
    | exact h
    | exact hg
    | exact wellFormed_record _ _ rfl hg
    | exact wellFormed_release_commandReceiver _ (wellFormed_record _ _ rfl hg)

/-- The invariant is kept by `tryToReceiveStatistics`. -/
theorem wellFormed_tryToReceiveStatistics (rx : RecvResult) (p : Process)
    (h : WellFormed p) : WellFormed (tryToReceiveStatistics rx p).after := by
  have hg := wellFormed_giveUp_bindServer p.statisticsReceiver_ p h
  unfold tryToReceiveStatistics
  simp only []
  repeat' split
  all_goals
    first
    | exact h
    | exact hg
    | exact wellFormed_record _ _ rfl hg
    | exact wellFormed_release_statisticsReceiver _ (wellFormed_record _ _ rfl hg)

/-- The invariant is kept by `tryToReceiveState`. -/
theorem wellFormed_tryToReceiveState (ofBytes : String → STATE) (rx : RecvResult)
    (p : Process) (h : WellFormed p) : WellFormed (tryToReceiveState ofBytes rx p).after := by
  have hg := wellFormed_giveUp_bindServer p.stateReceiver_ p h
  unfold tryToReceiveState
  simp only []
  repeat' split
  all_goals
    first
    | exact h
    | exact hg
    | exact wellFormed_record _ _ rfl hg
    | exact wellFormed_release_stateReceiver _ (wellFormed_record _ _ rfl hg)

/-- Forgetting the returned value keeps the state. -/
theorem Run.discard_after {α : Type} (r : Run α) : r.discard.after = r.after := by
  unfold Run.discard
  split <;> rfl

/-- The invariant is kept by every operation. -/
theorem wellFormed_step (toBytes : STATE → String) (ofBytes : String → STATE) (op : Op)
    (p : Process) (h : WellFormed p) : WellFormed (step toBytes ofBytes op p).after := by
  cases op with
  | shutDown => exact wellFormed_shutDown p h
  | connectClient => exact wellFormed_connectClient p h
  | bindServer => exact wellFormed_bindServer p h
  | setTimeout timeout => exact wellFormed_setTimeout timeout p h
  | updateState newState tx => exact wellFormed_updateState toBytes newState tx p h
  | sendErrorMessage message tx => exact wellFormed_sendStatistics _ message tx p h
  | sendStatistics name values tx => exact wellFormed_sendStatistics name values tx p h
  | sendCommand command tx => exact wellFormed_sendCommand command tx p h
  | getNextCommand rx =>
    simp only [step, Run.discard_after]
    exact wellFormed_getNextCommand rx p h
  | tryToReceiveStatistics rx =>
    simp only [step, Run.discard_after]
    exact wellFormed_tryToReceiveStatistics rx p h
  | tryToReceiveState rx =>
    simp only [step, Run.discard_after]
    exact wellFormed_tryToReceiveState ofBytes rx p h
  | transport running => exact h

/-- In every reachable state each handle present is a socket connected or bound
to the address of its channel. -/
theorem Reachable.wellFormed (toBytes : STATE → String) (ofBytes : String → STATE)
    (p : Process) (h : Reachable toBytes ofBytes p) : WellFormed p := by
  induction h with
  | start running => exact wellFormed_start running
  | step op p _ _ ih => exact wellFormed_step toBytes ofBytes op p ih

/-! ## updateState -/

/-- Claim C1: for every registry state, every condition of the transport
(running or not, hence client role established or refused, send taken or
failing with any error number) and every state value S, the current state
stored after `updateState(S)` is S. -/
theorem updateState_sets_currentState (toBytes : STATE → String) (S : STATE)
    (tx : SendResult) (p : Process) :
    (updateState toBytes S tx p).after.currentState = S := by
  unfold updateState giveUp connectClient GenerateSocket record IsRunning
  cases p.running <;> cases p.stateSender_ <;> cases tx <;> simp

/-! ## Statistics channel -/

/-- Claim C2: for non-empty name and value, both transports running, the
statistics sender (if present) connected to the statistics address and the
statistics receiver (if present) bound to it, and no frame in flight on that
address: after `sendStatistics(name, value)` on the client the lossless
first-in first-out net holds exactly the frame name:value on the statistics
address, and `tryToReceiveStatistics()` on the server, answered from that
queue, returns exactly name ++ ":" ++ value; the receive is made on a socket
whose address is the statistics address.  The two conditions on the handles
hold in every reachable state (`Reachable.wellFormed`). -/
theorem statistics_round_trip (name values : String) (client server : Process) (net : Net)
    (hname : name ≠ "") (hvalues : values ≠ "")
    (hclient : client.running = true) (hserver : server.running = true)
    (hsender : ∀ s, client.statisticsSender_ = some s →
      endpointOf client.calls s = some StatisticsAddress)
    (hreceiver : ∀ s, server.statisticsReceiver_ = some s →
      endpointOf server.calls s = some StatisticsAddress)
    (hidle : net StatisticsAddress = []) :
    let sent := sendStatistics name values SendResult.sent client
    let net1 := deliver net client.calls (newCalls client sent.after)
    let received := tryToReceiveStatistics (answer net1 StatisticsAddress) server
    net1 StatisticsAddress = [name ++ ":" ++ values] ∧
    received.outcome = Outcome.returned (name ++ ":" ++ values) ∧
    ∃ s, received.after.calls.getLast? = some (Call.recv s) ∧
      endpointOf received.after.calls s = some StatisticsAddress := by
  obtain ⟨st, h1, h2, h3, h4, h5, h6, run, next, log⟩ := client
  obtain ⟨st2, k1, k2, k3, k4, k5, k6, run2, next2, log2⟩ := server
  simp only at hclient hserver hsender hreceiver
  subst hclient hserver
  have hnet : deliver net log (newCalls
      ⟨st, h1, h2, h3, h4, h5, h6, true, next, log⟩
      (sendStatistics name values SendResult.sent
        ⟨st, h1, h2, h3, h4, h5, h6, true, next, log⟩).after) StatisticsAddress
      = [name ++ ":" ++ values] := by
    cases h2 with
    | none =>
      simp [sendStatistics, giveUp, connectClient, GenerateSocket, IsRunning, record, newCalls,
        hname, hvalues, deliver, endpointOf, enqueue, hidle]
    | some s =>
      simp [sendStatistics, giveUp, IsRunning, record, newCalls,
        hname, hvalues, deliver, hsender s rfl, enqueue, hidle]
  intro sent net1 received
  have hans : answer net1 StatisticsAddress = RecvResult.frame (name ++ ":" ++ values) := by
    simp only [answer, net1, sent, hnet]
  refine ⟨hnet, ?_, ?_⟩
  · simp only [received, hans]
    cases k5 <;>
      simp [tryToReceiveStatistics, giveUp, bindServer, GenerateSocket, IsRunning, record]
  · simp only [received, hans]
    cases k5 with
    | none =>
      refine ⟨next2, ?_⟩
      have hne : next2 + 1 + 1 ≠ next2 := by omega
      simp [tryToReceiveStatistics, giveUp, bindServer, GenerateSocket, IsRunning, record,
        endpointOf, List.findSome?_cons, hne]
    | some s =>
      refine ⟨s, ?_⟩
      have h := hreceiver s rfl
      simp [tryToReceiveStatistics, giveUp, IsRunning, record, endpointOf_append_recv, h]

/-- Instance of C2: two fresh processes with running transports and an idle
net; the statistic L0Rate with value 42 arrives as the frame L0Rate:42. -/
theorem statistics_round_trip_witness :
    ("L0Rate" ≠ "" ∧ "42" ≠ "") ∧
    ((Process.start true).running = true ∧ Net.idle StatisticsAddress = []) ∧
    (tryToReceiveStatistics
      (answer (deliver Net.idle (Process.start true).calls
        (newCalls (Process.start true)
          (sendStatistics "L0Rate" "42" SendResult.sent (Process.start true)).after))
        StatisticsAddress)
      (Process.start true)).outcome = Outcome.returned ("L0Rate" ++ ":" ++ "42") :=
  ⟨by decide, ⟨rfl, rfl⟩,
    (statistics_round_trip "L0Rate" "42" (Process.start true) (Process.start true) Net.idle
      (by decide) (by decide) rfl rfl (by intro s h; cases h) (by intro s h; cases h)
      rfl).2.1⟩

/-- Counterexample to C3 as stated: on a fresh process with the transport
running (statistics sender absent), `sendStatistics("", "x")` makes six
transport calls (three socket creations, three connects) and changes the
handles. -/
theorem sendStatistics_empty_name_connects :
    (Process.start true).statisticsSender_ = none ∧
    (sendStatistics "" "x" SendResult.sent (Process.start true)).after.calls =
      [Call.GenerateSocket SocketType.ZMQ_PUSH 0, Call.GenerateSocket SocketType.ZMQ_PUSH 1,
        Call.GenerateSocket SocketType.ZMQ_PULL 2, Call.connect 2 CommandAddress,
        Call.connect 0 StateAddress, Call.connect 1 StatisticsAddress] ∧
    (sendStatistics "" "x" SendResult.sent (Process.start true)).after.handles ≠
      (Process.start true).handles := by
  decide

/-- Claim C3, amended: with an empty name or an empty value, `sendStatistics`
returns and never sends.  When the transport is not running or the statistics
sender is present it makes no transport call at all and leaves the whole
process, so all six handles, unchanged.  When the transport is running and
the statistics sender is absent it makes exactly the calls of `connectClient`
(three socket creations, three connects) and nothing else. -/
theorem sendStatistics_empty_never_sends (name values : String) (tx : SendResult)
    (p : Process) (hempty : name = "" ∨ values = "") :
    (sendStatistics name values tx p).outcome = Outcome.returned () ∧
    (∀ s frame, Call.send s frame ∉ newCalls p (sendStatistics name values tx p).after) ∧
    ((p.running = false ∨ p.statisticsSender_ ≠ none) →
      (sendStatistics name values tx p).after = p) ∧
    (p.running = true → p.statisticsSender_ = none →
      (sendStatistics name values tx p).after = (connectClient p).2 ∧
      newCalls p (sendStatistics name values tx p).after =
        [Call.GenerateSocket SocketType.ZMQ_PUSH p.nextSocket,
          Call.GenerateSocket SocketType.ZMQ_PUSH (p.nextSocket + 1),
          Call.GenerateSocket SocketType.ZMQ_PULL (p.nextSocket + 2),
          Call.connect (p.nextSocket + 2) CommandAddress,
          Call.connect p.nextSocket StateAddress,
          Call.connect (p.nextSocket + 1) StatisticsAddress]) := by
  obtain ⟨st, h1, h2, h3, h4, h5, h6, run, next, log⟩ := p
  cases run <;> cases h2 <;>
    simp [sendStatistics, giveUp, connectClient, GenerateSocket, IsRunning, record, newCalls,
      hempty]

/-- Instance of the amended C3: on the established worker an empty name
leaves the process as it was. -/
theorem sendStatistics_empty_never_sends_witness :
    ("" = "" ∨ "x" = "") ∧ worker.statisticsSender_ ≠ none ∧
    (sendStatistics "" "x" SendResult.sent worker).after = worker :=
  ⟨Or.inl rfl, by decide,
    (sendStatistics_empty_never_sends "" "x" SendResult.sent worker (Or.inl rfl)).2.2.1
      (Or.inr (by decide))⟩

/-! ## Role establishment -/

/-- Counterexample to C4 as stated: on the established worker (transport
running, the three client handles present) a further `connectClient` creates
three more sockets, connects them and replaces the handles. -/
theorem connectClient_again_replaces_handles :
    (worker.running = true ∧ worker.stateSender_ = some 0 ∧
      worker.statisticsSender_ = some 1 ∧ worker.commandReceiver_ = some 2) ∧
    (connectClient worker).2.handles ≠ worker.handles ∧
    newCalls worker (connectClient worker).2 =
      [Call.GenerateSocket SocketType.ZMQ_PUSH 3, Call.GenerateSocket SocketType.ZMQ_PUSH 4,
        Call.GenerateSocket SocketType.ZMQ_PULL 5, Call.connect 5 CommandAddress,
        Call.connect 3 StateAddress, Call.connect 4 StatisticsAddress] := by
  decide

/-- Claim C4, amended: with the transport running, `connectClient` returns
true and, whatever handles are present, assigns three newly generated sockets
to state sender, statistics sender and command receiver, connects them to the
three addresses (three creations and three connects, nothing else) and leaves
the three handles of the server role unchanged; `bindServer` does the same
for statistics receiver, state receiver and command sender with three binds
and leaves the three handles of the client role unchanged. -/
theorem role_establishment_when_running (p : Process) (hrun : p.running = true) :
    ((connectClient p).1 = true ∧
      (connectClient p).2.stateSender_ = some p.nextSocket ∧
      (connectClient p).2.statisticsSender_ = some (p.nextSocket + 1) ∧
      (connectClient p).2.commandReceiver_ = some (p.nextSocket + 2) ∧
      (connectClient p).2.commandSender_ = p.commandSender_ ∧
      (connectClient p).2.stateReceiver_ = p.stateReceiver_ ∧
      (connectClient p).2.statisticsReceiver_ = p.statisticsReceiver_ ∧
      newCalls p (connectClient p).2 =
        [Call.GenerateSocket SocketType.ZMQ_PUSH p.nextSocket,
          Call.GenerateSocket SocketType.ZMQ_PUSH (p.nextSocket + 1),
          Call.GenerateSocket SocketType.ZMQ_PULL (p.nextSocket + 2),
          Call.connect (p.nextSocket + 2) CommandAddress,
          Call.connect p.nextSocket StateAddress,
          Call.connect (p.nextSocket + 1) StatisticsAddress]) ∧
    ((bindServer p).1 = true ∧
      (bindServer p).2.statisticsReceiver_ = some p.nextSocket ∧
      (bindServer p).2.stateReceiver_ = some (p.nextSocket + 1) ∧
      (bindServer p).2.commandSender_ = some (p.nextSocket + 2) ∧
      (bindServer p).2.stateSender_ = p.stateSender_ ∧
      (bindServer p).2.statisticsSender_ = p.statisticsSender_ ∧
      (bindServer p).2.commandReceiver_ = p.commandReceiver_ ∧
      newCalls p (bindServer p).2 =
        [Call.GenerateSocket SocketType.ZMQ_PULL p.nextSocket,
          Call.GenerateSocket SocketType.ZMQ_PULL (p.nextSocket + 1),
          Call.GenerateSocket SocketType.ZMQ_PUSH (p.nextSocket + 2),
          Call.bind (p.nextSocket + 1) StateAddress,
          Call.bind p.nextSocket StatisticsAddress,
          Call.bind (p.nextSocket + 2) CommandAddress]) := by
  obtain ⟨st, h1, h2, h3, h4, h5, h6, run, next, log⟩ := p
  simp only at hrun
  subst hrun
  simp [connectClient, bindServer, GenerateSocket, IsRunning, record, newCalls]

/-- Instance of the amended C4: a second `connectClient` on the established
worker returns true and makes socket 3 the state sender. -/
theorem role_establishment_when_running_witness :
    worker.running = true ∧
    (connectClient worker).1 = true ∧ (connectClient worker).2.stateSender_ = some 3 :=
  ⟨rfl, (role_establishment_when_running worker rfl).1.1,
    (role_establishment_when_running worker rfl).1.2.1⟩

/-! ## shutDown -/

/-- Claim C5: for every registry state, `shutDown()` returns and leaves all
six handles absent, which is the handle part of a freshly started process;
the current state and the transport are as before. -/
theorem shutDown_leaves_no_handle (p : Process) (running : Bool) :
    (shutDown p).handles = Handles.absent ∧
      (shutDown p).handles = (Process.start running).handles ∧
      (shutDown p).currentState = p.currentState ∧
      (shutDown p).running = p.running := by
  obtain ⟨st, h1, h2, h3, h4, h5, h6, run, next, log⟩ := p
  cases h1 <;> cases h2 <;> cases h3 <;> cases h4 <;> cases h5 <;> cases h6 <;>
    simp [shutDown, DestroySocket, record, Process.handles, Handles.absent, Process.start]

/-! ## Receive operations -/

/-- Claim C6: `tryToReceiveState()` returns TIMEOUT when the transport is not
running, when `bindServer` fails, when the receive times out and when it
fails with any error number; with the transport running and a frame received
it returns the decoded state, and any other result than TIMEOUT comes from a
received frame.  The state receiver is absent afterwards exactly when the
receive failed with an error number other than EINTR, or the receiver was
absent and `bindServer` failed; on a timeout and on EINTR a present receiver
stays the same handle. -/
theorem tryToReceiveState_result (ofBytes : String → STATE) (rx : RecvResult) (p : Process) :
    ((p.running = false ∨ (bindServer p).1 = false ∨ rx = RecvResult.again ∨
        (∃ e, rx = RecvResult.error e)) →
      (tryToReceiveState ofBytes rx p).outcome = Outcome.returned STATE.TIMEOUT) ∧
    (∀ bytes, p.running = true → rx = RecvResult.frame bytes →
      (tryToReceiveState ofBytes rx p).outcome = Outcome.returned (ofBytes bytes)) ∧
    (∀ v, (tryToReceiveState ofBytes rx p).outcome = Outcome.returned v →
      v ≠ STATE.TIMEOUT →
      p.running = true ∧ ∃ bytes, rx = RecvResult.frame bytes ∧ v = ofBytes bytes) ∧
    ((tryToReceiveState ofBytes rx p).after.stateReceiver_ = none ↔
      (p.running = true ∧ ∃ e, rx = RecvResult.error e ∧ e ≠ EINTR) ∨
        (p.stateReceiver_ = none ∧ (bindServer p).1 = false)) ∧
    (∀ s, p.stateReceiver_ = some s →
      (rx = RecvResult.again ∨ rx = RecvResult.error EINTR) →
      (tryToReceiveState ofBytes rx p).after.stateReceiver_ = some s) := by
  obtain ⟨st, h1, h2, h3, h4, h5, h6, run, next, log⟩ := p
  rcases rx with bytes | _ | e
  · cases run <;> cases h4 <;>
      simp [tryToReceiveState, giveUp, bindServer, GenerateSocket, DestroySocket, record,
        IsRunning]
  · cases run <;> cases h4 <;>
      simp [tryToReceiveState, giveUp, bindServer, GenerateSocket, DestroySocket, record,
        IsRunning]
  · by_cases he : e = EINTR <;> cases run <;> cases h4 <;>
      simp [tryToReceiveState, giveUp, bindServer, GenerateSocket, DestroySocket, record,
        IsRunning, he]

/-- Claim C7: `getNextCommand()` with the transport running and the command
receiver present: on EINTR the result is the empty string and the command
receiver is the same handle; on any other error number the result is the
empty string and the command receiver is absent afterwards; on a received
frame the result is exactly its bytes.  In every case the other five handles
and the current state are unchanged. -/
theorem getNextCommand_with_receiver (rx : RecvResult) (p : Process) (s : Socket)
    (hrun : p.running = true) (hrecv : p.commandReceiver_ = some s) :
    (rx = RecvResult.error EINTR →
      (getNextCommand rx p).outcome = Outcome.returned "" ∧
        (getNextCommand rx p).after.commandReceiver_ = some s) ∧
    (∀ e, e ≠ EINTR → rx = RecvResult.error e →
      (getNextCommand rx p).outcome = Outcome.returned "" ∧
        (getNextCommand rx p).after.commandReceiver_ = none) ∧
    (∀ bytes, rx = RecvResult.frame bytes →
      (getNextCommand rx p).outcome = Outcome.returned bytes) ∧
    ((getNextCommand rx p).after.stateSender_ = p.stateSender_ ∧
      (getNextCommand rx p).after.statisticsSender_ = p.statisticsSender_ ∧
      (getNextCommand rx p).after.commandSender_ = p.commandSender_ ∧
      (getNextCommand rx p).after.stateReceiver_ = p.stateReceiver_ ∧
      (getNextCommand rx p).after.statisticsReceiver_ = p.statisticsReceiver_ ∧
      (getNextCommand rx p).after.currentState = p.currentState) := by
  obtain ⟨st, h1, h2, h3, h4, h5, h6, run, next, log⟩ := p
  simp only at hrun hrecv
  subst hrun hrecv
  rcases rx with bytes | _ | e
  · simp [getNextCommand, giveUp, IsRunning, record]
  · simp [getNextCommand, giveUp, IsRunning, record]
  · by_cases he : e = EINTR
    · subst he
      simp [getNextCommand, giveUp, IsRunning, record, DestroySocket]
      intro e2 hne heq
      exact hne heq.symm
    · simp [getNextCommand, giveUp, IsRunning, record, DestroySocket, he]

/-- Instance of C7: on the established worker a receive failing with error
number 88 gives the empty string and leaves the command receiver absent. -/
theorem getNextCommand_with_receiver_witness :
    (worker.running = true ∧ worker.commandReceiver_ = some 2 ∧ 88 ≠ EINTR) ∧
    (getNextCommand (RecvResult.error 88) worker).outcome = Outcome.returned "" ∧
      (getNextCommand (RecvResult.error 88) worker).after.commandReceiver_ = none :=
  ⟨⟨rfl, rfl, by decide⟩,
    (getNextCommand_with_receiver (RecvResult.error 88) worker 2 rfl rfl).2.1 88
      (by decide) rfl⟩

/-! ## setTimeout -/

/-- Counterexample to C8 as stated: on a fresh process with the transport
running, `setTimeout(100)` returns and the command sender, absent before, is
socket 2 afterwards. -/
theorem setTimeout_lazy_bind_sets_commandSender :
    (Process.start true).commandSender_ = none ∧
    (setTimeout 100 (Process.start true)).outcome = Outcome.returned () ∧
    (setTimeout 100 (Process.start true)).after.commandSender_ = some 2 := by
  decide

/-- Claim C8, amended: whenever `setTimeout(timeout)` returns, state sender,
statistics sender and command receiver are unchanged.  When the statistics
receiver is present or the transport is not running, all six handles are
unchanged.  When the statistics receiver is absent and the transport is
running, the handles are those `bindServer` leaves, so the command sender is
replaced by a newly generated socket.  Every receive-timeout option set
carries the given timeout and is set on the statistics receiver or the state
receiver. -/
theorem setTimeout_frame (timeout : Int) (p : Process)
    (hret : (setTimeout timeout p).outcome = Outcome.returned ()) :
    ((setTimeout timeout p).after.stateSender_ = p.stateSender_ ∧
      (setTimeout timeout p).after.statisticsSender_ = p.statisticsSender_ ∧
      (setTimeout timeout p).after.commandReceiver_ = p.commandReceiver_) ∧
    ((p.statisticsReceiver_ ≠ none ∨ p.running = false) →
      (setTimeout timeout p).after.handles = p.handles) ∧
    (p.statisticsReceiver_ = none → p.running = true →
      (setTimeout timeout p).after.handles = (bindServer p).2.handles ∧
      (setTimeout timeout p).after.commandSender_ = some (p.nextSocket + 2)) ∧
    (∀ s t, Call.setsockopt s t ∈ newCalls p (setTimeout timeout p).after →
      t = timeout ∧ (some s = (setTimeout timeout p).after.statisticsReceiver_ ∨
        some s = (setTimeout timeout p).after.stateReceiver_)) := by
  obtain ⟨st, h1, h2, h3, h4, h5, h6, run, next, log⟩ := p
  revert hret
  cases run <;> cases h5 <;> cases h4 <;>
    simp [setTimeout, giveUp, bindServer, GenerateSocket, IsRunning, record, newCalls,
      Process.handles]
  all_goals
    rintro s t (⟨hs, ht⟩ | ⟨hs, ht⟩) <;> simp [hs, ht]

/-- Instance of the amended C8: on the established collector `setTimeout(100)`
returns and leaves the six handles as they were. -/
theorem setTimeout_frame_witness :
    (setTimeout 100 collector).outcome = Outcome.returned () ∧
    collector.statisticsReceiver_ ≠ none ∧
    (setTimeout 100 collector).after.handles = collector.handles :=
  ⟨by decide, by decide,
    (setTimeout_frame 100 collector (by decide)).2.1 (Or.inl (by decide))⟩

/-! ## Recovery after a fatal error -/

/-- Claim C10, evaluated at the failing input: start with the transport
running, let the receive of `tryToReceiveState()` fail with error number 88.
The state reached has the statistics receiver present (socket 0) and the
state receiver absent, and `setTimeout(100)` in it calls `setsockopt` through
the absent state receiver. -/
theorem setTimeout_after_fatal_state_error (toBytes : STATE → String)
    (ofBytes : String → STATE) :
    let p := (tryToReceiveState ofBytes (RecvResult.error 88) (Process.start true)).after
    Reachable toBytes ofBytes p ∧ p.statisticsReceiver_ = some 0 ∧ p.stateReceiver_ = none ∧
      (setTimeout 100 p).outcome = Outcome.nullDeref := by
  refine ⟨?_, rfl, rfl, rfl⟩
  exact Reachable.step (Op.tryToReceiveState (RecvResult.error 88)) (Process.start true)
    (Reachable.start true) (by simp [step, Run.discard, tryToReceiveState, giveUp, bindServer,
      GenerateSocket, IsRunning, record, DestroySocket, Process.start, EINTR])

end na62
